import Mathlib

/-!
Shallow embedding of the service worker `src/sw.js` (offline-caching layer
for a static site).  The worker classifies intercepted requests into
document / asset / other, applies one of three fetch/cache strategies,
precaches a core manifest on install, and deletes stale cache partitions on
activate.  Network fetches, storage writes and trims are modelled by
explicit outcome parameters (a fetch either resolves with a response, rejects,
or — for the asset branch — may still be pending; a storage write either
succeeds or fails), so that properties quantifying over those outcomes can be
stated directly.
-/

set_option autoImplicit false

namespace Svetla

/-- A response snapshot: status, headers, body (per the data model:
a stored response is status + headers + body). -/
structure Resp where
  status  : Nat
  headers : List (String × String)
  body    : String
deriving Repr, DecidableEq

/-- The Fetch API `res.ok` getter: true iff the status is in the 200–299 range. -/
def Resp.ok (r : Resp) : Bool :=
  decide (200 ≤ r.status) && decide (r.status ≤ 299)

/-- An intercepted request, with the fields `sw.js` inspects:
`method`, `url` (its string and its origin component), `mode`,
the `accept` header (`none` when the header is absent, matching
`headers.get(\x27accept\x27)` returning `null`), and `destination`. -/
structure Request where
  method      : String
  url         : String
  origin      : String
  mode        : String
  accept      : Option String
  destination : String
deriving Repr, DecidableEq

/-- Leading-match test on character lists: `headMatch sub l` is true iff
`sub` is an initial segment of `l`. -/
def headMatch : List Char → List Char → Bool
  | [], _ => true
  | _ :: _, [] => false
  | a :: as, b :: bs => a == b && headMatch as bs

/-- JS `String.prototype.includes`: `sub` occurs contiguously in `s`. -/
def strIncludes (s sub : String) : Bool :=
  s.data.tails.any fun t => headMatch sub.data t

/-- JS `String.prototype.startsWith`. -/
def strStarts (s pre : String) : Bool :=
  headMatch pre.data s.data

/-- JS `String.prototype.endsWith`. -/
def strEnds (s suf : String) : Bool :=
  headMatch suf.data.reverse s.data.reverse

/-- The version tag `APP_VERSION` from `sw.js`. -/
def APP_VERSION : String := "2025-12-18_03"

/-- The partition-name stem (`CACHE_PREFIX` in `sw.js`). -/
def CACHE_STEM : String := "svetla"

/-- `CACHE_HTML` from `sw.js`: the current document partition name. -/
def CACHE_HTML : String := CACHE_STEM ++ "-html-" ++ APP_VERSION

/-- `CACHE_ASSETS` from `sw.js`: the current asset partition name. -/
def CACHE_ASSETS : String := CACHE_STEM ++ "-assets-" ++ APP_VERSION

/-- The precache manifest `CORE_ASSETS` from `sw.js`. -/
def CORE_ASSETS : List String :=
  ["./", "./index.html", "./manifest.json", "./sw.js",
   "./icons/icon-192.png", "./icons/icon-512.png"]

/-- `MAX_ASSET_ENTRIES` from `sw.js`. -/
def MAX_ASSET_ENTRIES : Nat := 120

/-- `isSameOrigin` from `sw.js`: the request URL's origin equals the
worker's own origin. -/
def isSameOrigin (reqOrigin selfOrigin : String) : Bool :=
  reqOrigin == selfOrigin

/-- `isHTMLRequest` from `sw.js`: top-level navigation, or the `accept`
header (empty string when absent) contains `text/html`. -/
def isHTMLRequest (r : Request) : Bool :=
  r.mode == "navigate" || strIncludes (r.accept.getD "") "text/html"

/-- `isAssetRequest` from `sw.js`: the destination is one of the six
asset destinations. -/
def isAssetRequest (r : Request) : Bool :=
  r.destination == "script" || r.destination == "style"
    || r.destination == "image" || r.destination == "font"
    || r.destination == "audio" || r.destination == "video"

/-- The three request categories of the classifier. -/
inductive Category where
  | document
  | asset
  | other
deriving Repr, DecidableEq

/-- The dispatch order of the `fetch` listener in `sw.js`: the HTML test is
applied first, then the asset test, and everything else is `other`. -/
def classify (r : Request) : Category :=
  if isHTMLRequest r then Category.document
  else if isAssetRequest r then Category.asset
  else Category.other

/-- A cache partition: entries in insertion order, keyed by request URL
(all intercepted requests are GET). -/
abbrev Cache := List (String × Resp)

/-- `cache.match(req)`: the stored response for the key, if any. -/
def cacheMatch (c : Cache) (k : String) : Option Resp :=
  (c.find? fun e => e.1 == k).map Prod.snd

/-- `cache.put(req, res)`: overwrite any existing entry for the key and
record the new entry (insertion order: the new entry is newest). -/
def cachePut (c : Cache) (k : String) (v : Resp) : Cache :=
  (c.filter fun e => !(e.1 == k)) ++ [(k, v)]

/-- `cache.delete(req)`: remove the entry for the key. -/
def cacheDelete (c : Cache) (k : String) : Cache :=
  c.filter fun e => !(e.1 == k)

/-- `cache.keys()`: the entry keys in insertion order. -/
def cacheKeys (c : Cache) : List String :=
  c.map Prod.fst

/-- `trimCache(cacheName, maxEntries)` from `sw.js`: if the entry count is
at most `maxEntries`, do nothing; otherwise delete the first
`count - maxEntries` keys (the oldest ones) one by one. -/
def trimCache (c : Cache) (maxEntries : Nat) : Cache :=
  if (cacheKeys c).length ≤ maxEntries then c
  else ((cacheKeys c).take ((cacheKeys c).length - maxEntries)).foldl cacheDelete c

/-- The synthesized offline response of the HTML branch:
`new Response(\x27Offline\x27, \x7b status: 503, headers: \x7b Content-Type: text/plain; charset=utf-8 \x7d \x7d)`. -/
def offlineResp : Resp :=
  { status := 503
    headers := [("Content-Type", "text/plain; charset=utf-8")]
    body := "Offline" }

/-- The synthesized total-failure response of the asset and other branches:
`new Response(\x27\x27, \x7b status: 504 \x7d)` — empty body; a string body
gets the Fetch-default plain-text content type. -/
def failResp : Resp :=
  { status := 504
    headers := [("Content-Type", "text/plain;charset=UTF-8")]
    body := "" }

/-- Outcome of the not-awaited asset-branch fetch: still pending, rejected,
or resolved with a response. -/
inductive NetOutcome where
  | pending
  | failed
  | done (r : Resp)
deriving Repr, DecidableEq

/-- The HTML branch (network-first).  `net` is the outcome of
`fetch(new Request(req, cache no-store))`: `some fresh` when it resolves,
`none` when it rejects.  `putOk` is whether the fire-and-forget
`htmlCache.put` succeeds (its failure is swallowed by `.catch`).
Returns the response handed to `event.respondWith` and the resulting
document partition. -/
def handleHTML (htmlCache : Cache) (req : Request) (net : Option Resp)
    (putOk : Bool) : Resp × Cache :=
  match net with
  | some fresh =>
      (fresh,
       if fresh.ok && putOk then cachePut htmlCache req.url fresh else htmlCache)
  | none =>
      match cacheMatch htmlCache req.url with
      | some cached => (cached, htmlCache)
      | none =>
          match cacheMatch htmlCache "./index.html" with
          | some fallback => (fallback, htmlCache)
          | none => (offlineResp, htmlCache)

/-- The asset branch (stale-while-revalidate).  The cached entry is looked
up first; the background fetch (`net`) stores and trims on an ok response
(`putOk` / `trimOk` are the swallowed outcomes of those two writes).  When a
cached entry exists it is returned without consulting `net`; otherwise the
branch awaits `net` (`none` in the first component models the await never
settling when `net` is pending; a rejected fetch was converted to `null` by
the inner catch, yielding the 504 response). -/
def handleAsset (cache : Cache) (req : Request) (net : NetOutcome)
    (putOk trimOk : Bool) (maxEntries : Nat) : Option Resp × Cache :=
  let cached := cacheMatch cache req.url
  let cacheAfter :=
    match net with
    | NetOutcome.done fresh =>
        if fresh.ok then
          let c1 := if putOk then cachePut cache req.url fresh else cache
          if trimOk then trimCache c1 maxEntries else c1
        else cache
    | _ => cache
  match cached with
  | some v => (some v, cacheAfter)
  | none =>
      match net with
      | NetOutcome.pending => (none, cache)
      | NetOutcome.failed => (some failResp, cacheAfter)
      | NetOutcome.done fresh => (some fresh, cacheAfter)

/-- The other branch (network-first with cache fallback): on a resolved
fetch, store when ok (store failure swallowed) and return it; on a rejected
fetch, return the cached entry if present, else the 504 response. -/
def handleOther (cache : Cache) (req : Request) (net : Option Resp)
    (putOk : Bool) : Resp × Cache :=
  match net with
  | some fresh =>
      (fresh,
       if fresh.ok && putOk then cachePut cache req.url fresh else cache)
  | none =>
      match cacheMatch cache req.url with
      | some v => (v, cache)
      | none => (failResp, cache)

/-- The install-time manifest split: paths ending in `/` or `.html` go to
the document partition. -/
def htmlList : List String :=
  CORE_ASSETS.filter fun p => strEnds p "/" || strEnds p ".html"

/-- The remaining manifest paths go to the asset partition. -/
def assetList : List String :=
  CORE_ASSETS.filter fun p => !(htmlList.contains p)

/-- One precache attempt for path `p` (the body of the `Promise.allSettled`
mapper): fetch with cache-reload; if it resolves ok and the put succeeds,
store; any failure leaves the cache unchanged for this path only. -/
def precacheOne (fetchRes : String → Option Resp) (putOk : String → Bool)
    (c : Cache) (p : String) : Cache :=
  match fetchRes p with
  | some res => if res.ok && putOk p then cachePut c p res else c
  | none => c

/-- What the precache of path `p` contributes on its own: the fetched
response when the fetch resolved ok and the store succeeded, nothing
otherwise. -/
def precacheExpected (fetchRes : String → Option Resp) (putOk : String → Bool)
    (p : String) : Option Resp :=
  match fetchRes p with
  | some res => if res.ok && putOk p then some res else none
  | none => none

/-- The install listener of `sw.js`: every html-list path is attempted into
the document partition and every asset-list path into the asset partition,
each attempt settled independently (`Promise.allSettled`). -/
def installPrecache (h0 a0 : Cache) (fetchRes : String → Option Resp)
    (putOk : String → Bool) : Cache × Cache :=
  (htmlList.foldl (precacheOne fetchRes putOk) h0,
   assetList.foldl (precacheOne fetchRes putOk) a0)

/-- The activate listener of `sw.js` deletes every cache name that starts
with the partition stem and is not one of the two current names.  These are
the deleted names. -/
def activateDeleted (names : List String) : List String :=
  names.filter fun k =>
    strStarts k CACHE_STEM && !([CACHE_HTML, CACHE_ASSETS].contains k)

/-- The cache names surviving activation. -/
def activateSurvivors (names : List String) : List String :=
  names.filter fun k =>
    !(strStarts k CACHE_STEM && !([CACHE_HTML, CACHE_ASSETS].contains k))

/-- The single cache name (`CACHE`) of the legacy worker in
`src/unnamed/part_000`. -/
def BARVY_CACHE : String := "barvy-v7"

/-- The precache list of the legacy worker's install listener in
`src/unnamed/part_000`. -/
def BARVY_ASSETS : List String :=
  ["./", "./index.html", "./manifest.json", "./video.mp4",
   "./icon-192.png", "./icon-512.png"]

/-- `cache.addAll(paths)` as used by the legacy worker's install listener:
all paths are fetched, and the batch is committed only when every fetch
resolves with an ok response; if any fetch rejects or yields a non-ok
response, the whole call rejects (`none`) and nothing is stored, which also
rejects the install's `waitUntil` promise. -/
def addAll (c : Cache) (paths : List String)
    (fetchRes : String → Option Resp) : Option Cache :=
  if paths.all (fun p =>
      match fetchRes p with
      | some r => r.ok
      | none => false)
  then some (paths.foldl (fun acc p =>
      match fetchRes p with
      | some r => cachePut acc p r
      | none => acc) c)
  else none

/-- The install listener of `src/unnamed/part_000`:
`caches.open(CACHE).then(c => c.addAll([...]))`. -/
def barvyInstall (c0 : Cache) (fetchRes : String → Option Resp) : Option Cache :=
  addAll c0 BARVY_ASSETS fetchRes

/-- The activate listener of `src/unnamed/part_000` deletes every cache
name different from `BARVY_CACHE`, with no stem check.  These are the
deleted names. -/
def barvyActivateDeleted (names : List String) : List String :=
  names.filter fun k => !(k == BARVY_CACHE)

/-- The cache names surviving the legacy worker's activation. -/
def barvyActivateSurvivors (names : List String) : List String :=
  names.filter fun k => k == BARVY_CACHE

/-! Supporting lemmas about the cache-store operations. -/

theorem find?_append_of_none {α : Type} (p : α → Bool) (l₁ l₂ : List α)
    (h : l₁.find? p = none) : (l₁ ++ l₂).find? p = l₂.find? p := by
  induction l₁ with
  | nil => rfl
  | cons a t ih =>
      cases ha : p a with
      | true => simp [List.find?_cons, ha] at h
      | false =>
          rw [List.find?_cons, ha] at h
          simpa [List.find?_cons, ha] using ih h

theorem find?_filter_self_eq_none (c : Cache) (k : String) :
    (c.filter fun e => !(e.1 == k)).find? (fun e => e.1 == k) = none := by
  induction c with
  | nil => rfl
  | cons e t ih =>
      cases he : (e.1 == k) with
      | true => simp [List.filter_cons, he, ih]
      | false => simp [List.filter_cons, List.find?_cons, he, ih]

theorem find?_filter_other (c : Cache) (k q : String) (h : ¬(q = k)) :
    (c.filter fun e => !(e.1 == k)).find? (fun e => e.1 == q)
      = c.find? (fun e => e.1 == q) := by
  induction c with
  | nil => rfl
  | cons e t ih =>
      cases heq : (e.1 == q) with
      | true =>
          have hek : (e.1 == k) = false := by
            have : e.1 = q := by simpa using heq
            simp [this, h]
          simp [List.filter_cons, List.find?_cons, hek, heq]
      | false =>
          cases hek : (e.1 == k) with
          | true => simp [List.filter_cons, hek, List.find?_cons, heq, ih]
          | false => simp [List.filter_cons, hek, List.find?_cons, heq, ih]

theorem cacheMatch_put_self (c : Cache) (k : String) (v : Resp) :
    cacheMatch (cachePut c k v) k = some v := by
  unfold cacheMatch cachePut
  rw [List.find?_append, find?_filter_self_eq_none c k]
  simp [List.find?_cons]

theorem cacheMatch_put_other (c : Cache) (k : String) (v : Resp) (q : String)
    (h : ¬(q = k)) : cacheMatch (cachePut c k v) q = cacheMatch c q := by
  unfold cacheMatch cachePut
  rw [List.find?_append, find?_filter_other c k q h]
  have hkq : (k == q) = false := by
    cases hkq : (k == q) with
    | true =>
        have hk : k = q := by simpa using hkq
        exact absurd hk.symm h
    | false => rfl
  simp [List.find?_cons, hkq]

@[simp] theorem cacheKeys_cons (e : String × Resp) (t : Cache) :
    cacheKeys (e :: t) = e.1 :: cacheKeys t := rfl

theorem cacheDelete_of_not_mem (c : Cache) (k : String) (h : ¬ k ∈ cacheKeys c) :
    cacheDelete c k = c := by
  induction c with
  | nil => rfl
  | cons e t ih =>
      have hk1 : ¬ e.1 = k := fun he => h (by simp [he])
      have hk2 : ¬ k ∈ cacheKeys t := fun hm => h (by simp [hm])
      have hek : (e.1 == k) = false := by simpa using hk1
      unfold cacheDelete at ih ⊢
      simp [List.filter_cons, hek, ih hk2]

theorem foldl_delete_take (c : Cache) (n : Nat) (hnd : (cacheKeys c).Nodup) :
    ((cacheKeys c).take n).foldl cacheDelete c = c.drop n := by
  induction c generalizing n with
  | nil => simp [cacheKeys]
  | cons e t ih =>
      cases n with
      | zero => simp
      | succ m =>
          have hnotin : ¬ e.1 ∈ cacheKeys t := (List.nodup_cons.mp hnd).1
          have hndt : (cacheKeys t).Nodup := (List.nodup_cons.mp hnd).2
          have hdel : cacheDelete (e :: t) e.1 = t := by
            unfold cacheDelete
            rw [List.filter_cons_of_neg (by simp)]
            exact cacheDelete_of_not_mem t e.1 hnotin
          rw [cacheKeys_cons, List.take_succ_cons, List.foldl_cons, hdel,
            List.drop_succ_cons, ih m hndt]

theorem trimCache_of_le (c : Cache) (maxE : Nat) (hle : c.length ≤ maxE) :
    trimCache c maxE = c := by
  unfold trimCache
  have hlen : (cacheKeys c).length = c.length := by simp [cacheKeys]
  rw [hlen, if_pos hle]

theorem trimCache_eq_drop (c : Cache) (maxE : Nat) (hnd : (cacheKeys c).Nodup)
    (hgt : maxE < c.length) :
    trimCache c maxE = c.drop (c.length - maxE) := by
  unfold trimCache
  have hlen : (cacheKeys c).length = c.length := by simp [cacheKeys]
  rw [hlen, if_neg (not_le.mpr hgt), foldl_delete_take c _ hnd]

theorem cacheMatch_precacheOne_other (f : String → Option Resp)
    (pu : String → Bool) (c : Cache) (p q : String) (h : ¬ q = p) :
    cacheMatch (precacheOne f pu c p) q = cacheMatch c q := by
  unfold precacheOne
  cases f p with
  | none => rfl
  | some r =>
      cases hok : (r.ok && pu p) with
      | true => simp [hok, cacheMatch_put_other c p r q h]
      | false => simp [hok]

theorem cacheMatch_precacheOne_self (f : String → Option Resp)
    (pu : String → Bool) (c : Cache) (p : String) :
    cacheMatch (precacheOne f pu c p) p =
      match precacheExpected f pu p with
      | some r => some r
      | none => cacheMatch c p := by
  unfold precacheOne precacheExpected
  cases f p with
  | none => rfl
  | some r =>
      cases hok : (r.ok && pu p) with
      | true => simp [hok, cacheMatch_put_self]
      | false => simp [hok]

theorem foldl_precache_not_mem (f : String → Option Resp) (pu : String → Bool)
    (l : List String) (c : Cache) (q : String) (h : ¬ q ∈ l) :
    cacheMatch (l.foldl (precacheOne f pu) c) q = cacheMatch c q := by
  induction l generalizing c with
  | nil => rfl
  | cons p t ih =>
      have h1 : ¬ q = p := fun he => h (by simp [he])
      have h2 : ¬ q ∈ t := fun hm => h (List.mem_cons_of_mem _ hm)
      rw [List.foldl_cons, ih _ h2, cacheMatch_precacheOne_other f pu c p q h1]

theorem foldl_precache_mem (f : String → Option Resp) (pu : String → Bool)
    (l : List String) (c : Cache) (q : String) (hq : q ∈ l) (hnd : l.Nodup) :
    cacheMatch (l.foldl (precacheOne f pu) c) q =
      match precacheExpected f pu q with
      | some r => some r
      | none => cacheMatch c q := by
  induction l generalizing c with
  | nil => cases hq
  | cons p t ih =>
      rcases List.mem_cons.mp hq with he | hm
      · subst he
        have hnotin : ¬ q ∈ t := (List.nodup_cons.mp hnd).1
        rw [List.foldl_cons, foldl_precache_not_mem f pu t _ q hnotin,
          cacheMatch_precacheOne_self]
      · have h1 : ¬ q = p := by
          intro he
          subst he
          exact (List.nodup_cons.mp hnd).1 hm
        rw [List.foldl_cons, ih (precacheOne f pu c p) hm (List.nodup_cons.mp hnd).2,
          cacheMatch_precacheOne_other f pu c p q h1]

/-! Claim theorems. -/

/-- C1: for every same-origin GET document request whose network fetch
fails, the HTML branch returns the cached entry for that request from the
document partition when present; otherwise the cached root-document
(`./index.html`) entry when present; otherwise the synthesized offline
response, whose status is 503 and whose `Content-Type` header is
`text/plain` (with a charset parameter). -/
theorem c1_document_offline_fallback (htmlCache : Cache) (req : Request)
    (selfOrigin : String) (putOk : Bool)
    (_hget : req.method = "GET")
    (_horig : isSameOrigin req.origin selfOrigin = true)
    (_hdoc : isHTMLRequest req = true) :
    (handleHTML htmlCache req none putOk).1 =
      (match cacheMatch htmlCache req.url with
       | some cached => cached
       | none =>
          match cacheMatch htmlCache "./index.html" with
          | some fallback => fallback
          | none => offlineResp)
    ∧ offlineResp.status = 503
    ∧ offlineResp.headers = [("Content-Type", "text/plain; charset=utf-8")]
    ∧ strStarts "text/plain; charset=utf-8" "text/plain" = true := by
  refine ⟨?_, rfl, rfl, by decide⟩
  cases h1 : cacheMatch htmlCache req.url with
  | some v => simp [handleHTML, h1]
  | none =>
      cases h2 : cacheMatch htmlCache "./index.html" with
      | some fb => simp [handleHTML, h1, h2]
      | none => simp [handleHTML, h1, h2]

/-- Witness for C1 at a concrete navigation request with an empty document
partition: the offline response is returned. -/
theorem c1_document_offline_fallback_witness :
    (handleHTML []
      { method := "GET", url := "./page", origin := "https://example.test",
        mode := "navigate", accept := none, destination := "document" }
      none true).1 = offlineResp := by
  have h := c1_document_offline_fallback []
    { method := "GET", url := "./page", origin := "https://example.test",
      mode := "navigate", accept := none, destination := "document" }
    "https://example.test" true rfl (by decide) (by decide)
  exact h.1.trans (by decide)

/-- C2: for every asset request with an existing cached entry in the asset
partition, the returned response is that cached entry, whatever the outcome
of the concurrent network fetch — resolved, rejected, or never settling —
and whatever the outcomes of the background store and trim. -/
theorem c2_asset_cached_independent_of_network (cache : Cache) (req : Request)
    (v : Resp) (h : cacheMatch cache req.url = some v)
    (net : NetOutcome) (putOk trimOk : Bool) (maxE : Nat) :
    (handleAsset cache req net putOk trimOk maxE).1 = some v := by
  simp [handleAsset, h]

/-- Witness for C2 at a concrete cached script entry: the same cached
response is returned for a pending, failed, and resolved network fetch. -/
theorem c2_asset_cached_independent_of_network_witness :
    ((handleAsset
        [("./a.js", { status := 200, headers := [], body := "old" })]
        { method := "GET", url := "./a.js", origin := "o", mode := "no-cors",
          accept := none, destination := "script" }
        NetOutcome.pending true true 120).1
      = some { status := 200, headers := [], body := "old" })
  ∧ ((handleAsset
        [("./a.js", { status := 200, headers := [], body := "old" })]
        { method := "GET", url := "./a.js", origin := "o", mode := "no-cors",
          accept := none, destination := "script" }
        NetOutcome.failed false false 120).1
      = some { status := 200, headers := [], body := "old" })
  ∧ ((handleAsset
        [("./a.js", { status := 200, headers := [], body := "old" })]
        { method := "GET", url := "./a.js", origin := "o", mode := "no-cors",
          accept := none, destination := "script" }
        (NetOutcome.done { status := 200, headers := [], body := "new" })
        true true 120).1
      = some { status := 200, headers := [], body := "old" }) :=
  ⟨c2_asset_cached_independent_of_network _ _ _ (by decide) _ _ _ _,
   c2_asset_cached_independent_of_network _ _ _ (by decide) _ _ _ _,
   c2_asset_cached_independent_of_network _ _ _ (by decide) _ _ _ _⟩

/-- C5 counterexample: a same-origin GET navigation request whose network
fetch succeeds with status 200, but whose fire-and-forget storage write
fails (the code swallows the failure): the network response is returned,
yet the document partition afterwards holds no entry for the request key,
so the claim as stated is false. -/
theorem c5_counterexample :
    ((handleHTML []
        { method := "GET", url := "./page", origin := "o", mode := "navigate",
          accept := none, destination := "document" }
        (some { status := 200, headers := [], body := "hello" }) false).1
      = { status := 200, headers := [], body := "hello" })
  ∧ cacheMatch
      (handleHTML []
        { method := "GET", url := "./page", origin := "o", mode := "navigate",
          accept := none, destination := "document" }
        (some { status := 200, headers := [], body := "hello" }) false).2
      "./page" = none := by decide

/-- C5 amended: for every same-origin GET document request whose network
fetch succeeds with a successful status, the returned response is the
network response (so the bodies are equal), and — provided the swallowed
storage write succeeds — the document partition subsequently contains an
entry for that request key holding that response. -/
theorem c5_document_success_stores (c : Cache) (req : Request)
    (selfOrigin : String) (fresh : Resp) (hok : fresh.ok = true)
    (_hget : req.method = "GET")
    (_horig : isSameOrigin req.origin selfOrigin = true)
    (_hdoc : isHTMLRequest req = true) :
    (handleHTML c req (some fresh) true).1 = fresh
  ∧ (handleHTML c req (some fresh) true).1.body = fresh.body
  ∧ cacheMatch (handleHTML c req (some fresh) true).2 req.url = some fresh := by
  refine ⟨rfl, rfl, ?_⟩
  simp [handleHTML, hok, cacheMatch_put_self]

/-- Witness for the amended C5 at a concrete navigation request and a 200
response: the response is passed through and stored. -/
theorem c5_document_success_stores_witness :
    ((handleHTML []
        { method := "GET", url := "./page", origin := "https://example.test",
          mode := "navigate", accept := none, destination := "document" }
        (some { status := 200, headers := [], body := "hello" }) true).1
      = { status := 200, headers := [], body := "hello" })
  ∧ cacheMatch
      (handleHTML []
        { method := "GET", url := "./page", origin := "https://example.test",
          mode := "navigate", accept := none, destination := "document" }
        (some { status := 200, headers := [], body := "hello" }) true).2
      "./page" = some { status := 200, headers := [], body := "hello" } := by
  have h := c5_document_success_stores []
    { method := "GET", url := "./page", origin := "https://example.test",
      mode := "navigate", accept := none, destination := "document" }
    "https://example.test"
    { status := 200, headers := [], body := "hello" }
    (by decide) rfl (by decide) (by decide)
  exact ⟨h.1, h.2.2⟩

/-- C6: an asset request with no cached entry and a rejected network fetch,
and an other-category request with a rejected network fetch and no cached
entry, both get the synthesized failure response, whose status is 504 and
whose body is empty. -/
theorem c6_total_failure_504 (c1 c2 : Cache) (r1 r2 : Request)
    (putOk trimOk putOk2 : Bool) (maxE : Nat)
    (h1 : cacheMatch c1 r1.url = none)
    (h2 : cacheMatch c2 r2.url = none) :
    (handleAsset c1 r1 NetOutcome.failed putOk trimOk maxE).1 = some failResp
  ∧ (handleOther c2 r2 none putOk2).1 = failResp
  ∧ failResp.status = 504 ∧ failResp.body = "" := by
  refine ⟨?_, ?_, rfl, rfl⟩
  · simp [handleAsset, h1]
  · simp [handleOther, h2]

/-- Witness for C6 at concrete asset and other requests over an empty
partition with a rejected fetch. -/
theorem c6_total_failure_504_witness :
    (handleAsset []
      { method := "GET", url := "./a.js", origin := "o", mode := "no-cors",
        accept := none, destination := "script" }
      NetOutcome.failed true true 120).1 = some failResp
  ∧ (handleOther []
      { method := "GET", url := "./data.json", origin := "o", mode := "cors",
        accept := none, destination := "" }
      none true).1 = failResp :=
  ⟨(c6_total_failure_504 [] []
      { method := "GET", url := "./a.js", origin := "o", mode := "no-cors",
        accept := none, destination := "script" }
      { method := "GET", url := "./data.json", origin := "o", mode := "cors",
        accept := none, destination := "" }
      true true true 120 (by decide) (by decide)).1,
   (c6_total_failure_504 [] []
      { method := "GET", url := "./a.js", origin := "o", mode := "no-cors",
        accept := none, destination := "script" }
      { method := "GET", url := "./data.json", origin := "o", mode := "cors",
        accept := none, destination := "" }
      true true true 120 (by decide) (by decide)).2.1⟩

/-- C10: when the network fetch resolves with a non-successful status, all
three branches return that response unchanged, store nothing, and consult
no cache fallback (for the asset branch, when no cached entry exists). -/
theorem c10_error_status_passthrough (c : Cache) (req : Request)
    (fresh : Resp) (hok : fresh.ok = false) (putOk trimOk : Bool) (maxE : Nat) :
    handleHTML c req (some fresh) putOk = (fresh, c)
  ∧ (cacheMatch c req.url = none →
      handleAsset c req (NetOutcome.done fresh) putOk trimOk maxE = (some fresh, c))
  ∧ handleOther c req (some fresh) putOk = (fresh, c) := by
  refine ⟨?_, fun hm => ?_, ?_⟩
  · simp [handleHTML, hok]
  · simp [handleAsset, hm, hok]
  · simp [handleOther, hok]

/-- Witness for C10 at a concrete 404 response: all three branches pass it
through and leave the (empty) partitions empty. -/
theorem c10_error_status_passthrough_witness :
    handleHTML []
      { method := "GET", url := "./page", origin := "o", mode := "navigate",
        accept := none, destination := "document" }
      (some { status := 404, headers := [], body := "nf" }) true
      = ({ status := 404, headers := [], body := "nf" }, [])
  ∧ handleAsset []
      { method := "GET", url := "./page", origin := "o", mode := "navigate",
        accept := none, destination := "document" }
      (NetOutcome.done { status := 404, headers := [], body := "nf" }) true true 120
      = (some { status := 404, headers := [], body := "nf" }, [])
  ∧ handleOther []
      { method := "GET", url := "./page", origin := "o", mode := "navigate",
        accept := none, destination := "document" }
      (some { status := 404, headers := [], body := "nf" }) true
      = ({ status := 404, headers := [], body := "nf" }, []) := by
  have h := c10_error_status_passthrough []
    { method := "GET", url := "./page", origin := "o", mode := "navigate",
      accept := none, destination := "document" }
    { status := 404, headers := [], body := "nf" } (by decide) true true 120
  exact ⟨h.1, h.2.1 (by decide), h.2.2⟩

/-- C7 counterexample: a navigation request whose declared destination is
`script` satisfies the asset predicate, yet the dispatch order classifies
it as `document` (the HTML test is applied first), so the claim's
"asset if and only if the destination is one of the six" is false as
stated. -/
theorem c7_counterexample :
    isAssetRequest
      { method := "GET", url := "./x", origin := "o", mode := "navigate",
        accept := none, destination := "script" } = true
  ∧ ¬ classify
      { method := "GET", url := "./x", origin := "o", mode := "navigate",
        accept := none, destination := "script" } = Category.asset
  ∧ classify
      { method := "GET", url := "./x", origin := "o", mode := "navigate",
        accept := none, destination := "script" } = Category.document := by
  decide

/-- C7 amended: classification returns `document` iff the request is a
top-level navigation or its accept header contains `text/html`; it returns
`asset` iff it is not classified `document` and its destination is one of
script, style, image, font, audio, video; it returns `other` otherwise;
and every request receives exactly one category. -/
theorem c7_classification (r : Request) :
    (classify r = Category.document ↔ isHTMLRequest r = true)
  ∧ (classify r = Category.asset ↔
      (isHTMLRequest r = false ∧ isAssetRequest r = true))
  ∧ (classify r = Category.other ↔
      (isHTMLRequest r = false ∧ isAssetRequest r = false))
  ∧ (isHTMLRequest r = true ↔
      (r.mode = "navigate" ∨ strIncludes (r.accept.getD "") "text/html" = true))
  ∧ (isAssetRequest r = true ↔
      (r.destination = "script" ∨ r.destination = "style"
        ∨ r.destination = "image" ∨ r.destination = "font"
        ∨ r.destination = "audio" ∨ r.destination = "video")) := by
  refine ⟨?_, ?_, ?_, ?_, ?_⟩
  · cases hH : isHTMLRequest r <;> cases hA : isAssetRequest r <;>
      simp [classify, hH, hA]
  · cases hH : isHTMLRequest r <;> cases hA : isAssetRequest r <;>
      simp [classify, hH, hA]
  · cases hH : isHTMLRequest r <;> cases hA : isAssetRequest r <;>
      simp [classify, hH, hA]
  · simp [isHTMLRequest]
  · simp [isAssetRequest, or_assoc]

/-- Witness for the amended C7: a non-navigation script request is
classified `asset`. -/
theorem c7_classification_witness :
    classify
      { method := "GET", url := "./s.js", origin := "o", mode := "no-cors",
        accept := none, destination := "script" } = Category.asset :=
  ((c7_classification
      { method := "GET", url := "./s.js", origin := "o", mode := "no-cors",
        accept := none, destination := "script" }).2.1).mpr
    ⟨by decide, by decide⟩

/-- C8: for a partition with pairwise distinct keys, trimming is a no-op
when the entry count is at most `maxEntries`; and when the partition holds
`maxEntries + k` entries with `k > 0`, the trimmed partition is exactly the
newest `maxEntries` entries (the suffix in insertion order), so the `k`
removed entries are the `k` oldest. -/
theorem c8_trim (c : Cache) (maxE : Nat) (hnd : (cacheKeys c).Nodup) :
    (c.length ≤ maxE → trimCache c maxE = c)
  ∧ (∀ k, c.length = maxE + k → 0 < k →
      trimCache c maxE = c.drop k
      ∧ (trimCache c maxE).length = maxE
      ∧ c.take k ++ trimCache c maxE = c) := by
  constructor
  · exact trimCache_of_le c maxE
  · intro k hlen hk
    have hgt : maxE < c.length := by omega
    have hdrop := trimCache_eq_drop c maxE hnd hgt
    have hsub : c.length - maxE = k := by omega
    rw [hsub] at hdrop
    refine ⟨hdrop, ?_, ?_⟩
    · rw [hdrop, List.length_drop]
      omega
    · rw [hdrop, List.take_append_drop]

/-- Witness for C8: a three-entry partition trimmed to one entry keeps
exactly the newest entry. -/
theorem c8_trim_witness :
    trimCache
      [("./a", { status := 200, headers := [], body := "1" }),
       ("./b", { status := 200, headers := [], body := "2" }),
       ("./c", { status := 200, headers := [], body := "3" })] 1
      = [("./c", { status := 200, headers := [], body := "3" })]
  ∧ (trimCache
      [("./a", { status := 200, headers := [], body := "1" }),
       ("./b", { status := 200, headers := [], body := "2" }),
       ("./c", { status := 200, headers := [], body := "3" })] 1).length = 1 := by
  have h := (c8_trim
    [("./a", { status := 200, headers := [], body := "1" }),
     ("./b", { status := 200, headers := [], body := "2" }),
     ("./c", { status := 200, headers := [], body := "3" })] 1
    (by decide)).2 2 (by decide) (by decide)
  exact ⟨h.1.trans (by decide), h.2.1⟩

theorem headMatch_append_left (l₁ l₂ l : List Char)
    (h : headMatch (l₁ ++ l₂) l = true) : headMatch l₁ l = true := by
  induction l₁ generalizing l with
  | nil => rfl
  | cons a t ih =>
      cases l with
      | nil => simp [headMatch] at h
      | cons b bs =>
          simp [headMatch] at h ⊢
          exact ⟨h.1, ih bs h.2⟩

theorem strStarts_append_left (s a b : String)
    (h : strStarts s (a ++ b) = true) : strStarts s a = true := by
  unfold strStarts at h ⊢
  rw [String.data_append] at h
  exact headMatch_append_left _ _ _ h

theorem activate_cond (k : String) :
    (strStarts k CACHE_STEM && !([CACHE_HTML, CACHE_ASSETS].contains k)) = true
      ↔ (strStarts k CACHE_STEM = true ∧ ¬ k = CACHE_HTML ∧ ¬ k = CACHE_ASSETS) := by
  cases h1 : strStarts k CACHE_STEM <;>
    simp [h1, List.contains, not_or]

/-- C3 counterexample: the activate listener of `src/unnamed/part_000`
deletes every cache whose name differs from `barvy-v7`, with no stem
check: over a concrete name list it deletes a name without the partition
stem (`other-cache`) and even the current document partition `CACHE_HTML`,
leaving only `barvy-v7` — so the claim that activation deletes exactly the
stem-carrying non-current partitions and leaves non-stem partitions
untouched is false at that cited listener. -/
theorem c3_counterexample :
    "other-cache" ∈ barvyActivateDeleted ["other-cache", CACHE_HTML, "barvy-v7"]
  ∧ strStarts "other-cache" CACHE_STEM = false
  ∧ CACHE_HTML ∈ barvyActivateDeleted ["other-cache", CACHE_HTML, "barvy-v7"]
  ∧ barvyActivateSurvivors ["other-cache", CACHE_HTML, "barvy-v7"]
      = ["barvy-v7"] := by decide

/-- C3 amended: in the activate listener of `sw.js`, activation deletes
exactly the existing cache names that carry the partition stem and are not
one of the two current names; names without the stem survive untouched;
the two current names survive when present; and among the surviving
stem-carrying names, exactly one has the document partition form and
exactly one the asset partition form — the current ones.  (The legacy
activate listener in `src/unnamed/part_000` instead deletes every cache
other than its own `barvy-v7`, with no stem check.) -/
theorem c3_activate_cleanup (names : List String) :
    (∀ k, k ∈ activateDeleted names ↔
        (k ∈ names ∧ strStarts k CACHE_STEM = true
          ∧ ¬ k = CACHE_HTML ∧ ¬ k = CACHE_ASSETS))
  ∧ (∀ k, strStarts k CACHE_STEM = false →
      (k ∈ activateSurvivors names ↔ k ∈ names))
  ∧ (∀ k, k ∈ activateSurvivors names → strStarts k CACHE_STEM = true →
      k = CACHE_HTML ∨ k = CACHE_ASSETS)
  ∧ (CACHE_HTML ∈ names → CACHE_HTML ∈ activateSurvivors names)
  ∧ (CACHE_ASSETS ∈ names → CACHE_ASSETS ∈ activateSurvivors names)
  ∧ (∀ k, k ∈ activateSurvivors names →
      strStarts k (CACHE_STEM ++ "-html-") = true → k = CACHE_HTML)
  ∧ (∀ k, k ∈ activateSurvivors names →
      strStarts k (CACHE_STEM ++ "-assets-") = true → k = CACHE_ASSETS) := by
  have hallowed : ∀ k, k ∈ activateSurvivors names →
      strStarts k CACHE_STEM = true → k = CACHE_HTML ∨ k = CACHE_ASSETS := by
    intro k hk hstem
    have h2 := (List.mem_filter.mp hk).2
    by_cases hA : k = CACHE_HTML
    · exact Or.inl hA
    by_cases hB : k = CACHE_ASSETS
    · exact Or.inr hB
    exfalso
    have hcond := (activate_cond k).mpr ⟨hstem, hA, hB⟩
    rw [hcond] at h2
    simp at h2
  refine ⟨?_, ?_, hallowed, ?_, ?_, ?_, ?_⟩
  · intro k
    constructor
    · intro hk
      have hm := List.mem_filter.mp hk
      exact ⟨hm.1, (activate_cond k).mp hm.2⟩
    · intro hk
      exact List.mem_filter.mpr ⟨hk.1, (activate_cond k).mpr hk.2⟩
  · intro k hstem
    constructor
    · intro hk
      exact (List.mem_filter.mp hk).1
    · intro hk
      refine List.mem_filter.mpr ⟨hk, ?_⟩
      simp [hstem]
  · intro h
    exact List.mem_filter.mpr ⟨h, by decide⟩
  · intro h
    exact List.mem_filter.mpr ⟨h, by decide⟩
  · intro k hk hstart
    have hstem : strStarts k CACHE_STEM = true :=
      strStarts_append_left k CACHE_STEM "-html-" hstart
    rcases hallowed k hk hstem with hA | hB
    · exact hA
    · rw [hB] at hstart
      exact absurd hstart (by decide)
  · intro k hk hstart
    have hstem : strStarts k CACHE_STEM = true :=
      strStarts_append_left k CACHE_STEM "-assets-" hstart
    rcases hallowed k hk hstem with hA | hB
    · rw [hA] at hstart
      exact absurd hstart (by decide)
    · exact hB

/-- Witness for C3: over a concrete name list, the stale stem-carrying name
is deleted, the foreign name survives, and both current names survive. -/
theorem c3_activate_cleanup_witness :
    "svetla-html-2024-01-01_01"
        ∈ activateDeleted
            ["svetla-html-2024-01-01_01", CACHE_HTML, CACHE_ASSETS, "other-cache"]
  ∧ "other-cache"
        ∈ activateSurvivors
            ["svetla-html-2024-01-01_01", CACHE_HTML, CACHE_ASSETS, "other-cache"]
  ∧ CACHE_HTML
        ∈ activateSurvivors
            ["svetla-html-2024-01-01_01", CACHE_HTML, CACHE_ASSETS, "other-cache"]
  ∧ CACHE_ASSETS
        ∈ activateSurvivors
            ["svetla-html-2024-01-01_01", CACHE_HTML, CACHE_ASSETS, "other-cache"] := by
  have h := c3_activate_cleanup
    ["svetla-html-2024-01-01_01", CACHE_HTML, CACHE_ASSETS, "other-cache"]
  exact ⟨(h.1 _).mpr ⟨by decide, by decide, by decide, by decide⟩,
    (h.2.1 _ (by decide)).mpr (by decide),
    h.2.2.2.1 (by decide),
    h.2.2.2.2.1 (by decide)⟩

@[simp] theorem cacheMatch_nil (k : String) : cacheMatch [] k = none := rfl

/-- C4 counterexample: the install listener of `src/unnamed/part_000`
precaches through `cache.addAll`, which is all-or-nothing: with an oracle
on which only `./video.mp4` fails (every other manifest entry resolves
with status 200), the whole batch rejects, nothing at all is stored, and
the install's `waitUntil` promise fails — so the claim that one entry's
failure does not abort the other entries nor fail the install phase is
false at that cited listener. -/
theorem c4_counterexample :
    barvyInstall []
      (fun p => if p == "./video.mp4" then none
        else some { status := 200, headers := [], body := "x" }) = none
  ∧ ((fun p => if p == "./video.mp4" then none
        else some { status := 200, headers := [], body := "x" } :
        String → Option Resp) "./index.html"
      = some { status := 200, headers := [], body := "x" }) := by decide

/-- C4 amended: in the install listener of `sw.js`, each precache attempt
is independent: for every fetch/store outcome oracle, the final entry of
the proper partition at each manifest path is exactly what that path's own
fetch and store outcome dictates, irrespective of every other path's
outcome — so one entry's failure leaves only its own path unstored and the
install phase still yields both partitions.  (The legacy install listener
in `src/unnamed/part_000` instead uses the all-or-nothing `cache.addAll`.) -/
theorem c4_install_independent (f : String → Option Resp)
    (pu : String → Bool) (q : String) :
    (q ∈ htmlList →
      cacheMatch (installPrecache [] [] f pu).1 q = precacheExpected f pu q)
  ∧ (q ∈ assetList →
      cacheMatch (installPrecache [] [] f pu).2 q = precacheExpected f pu q) := by
  constructor
  · intro hq
    have h := foldl_precache_mem f pu htmlList [] q hq (by decide)
    cases hpe : precacheExpected f pu q with
    | some r =>
        rw [hpe] at h
        exact h
    | none =>
        rw [hpe] at h
        exact h
  · intro hq
    have h := foldl_precache_mem f pu assetList [] q hq (by decide)
    cases hpe : precacheExpected f pu q with
    | some r =>
        rw [hpe] at h
        exact h
    | none =>
        rw [hpe] at h
        exact h

/-- Witness for C4: with an oracle on which only `./index.html` resolves,
install stores `./index.html` in the document partition while the failing
`./` entry is simply absent — the sibling failure did not abort it. -/
theorem c4_install_independent_witness :
    cacheMatch
      (installPrecache [] []
        (fun p => if p == "./index.html"
          then some { status := 200, headers := [], body := "idx" } else none)
        (fun _ => true)).1 "./index.html"
      = some { status := 200, headers := [], body := "idx" }
  ∧ cacheMatch
      (installPrecache [] []
        (fun p => if p == "./index.html"
          then some { status := 200, headers := [], body := "idx" } else none)
        (fun _ => true)).1 "./"
      = none := by
  have h1 := (c4_install_independent
    (fun p => if p == "./index.html"
      then some { status := 200, headers := [], body := "idx" } else none)
    (fun _ => true) "./index.html").1 (by decide)
  have h2 := (c4_install_independent
    (fun p => if p == "./index.html"
      then some { status := 200, headers := [], body := "idx" } else none)
    (fun _ => true) "./").1 (by decide)
  exact ⟨h1.trans (by decide), h2.trans (by decide)⟩

/-- C9: the outcome of every storage write and trim is invisible to the
caller: each branch's returned response is unchanged under any combination
of store/trim success and failure, and the HTML branch always resolves to
the fresh network response, an entry of the document partition (the
matching or the root-document one), or the synthesized offline response —
never anything else. -/
theorem c9_storage_advisory (c : Cache) (req : Request)
    (netH netO : Option Resp) (netA : NetOutcome)
    (p p2 t p' p2' t' : Bool) (maxE : Nat) :
    (handleHTML c req netH p).1 = (handleHTML c req netH p').1
  ∧ (handleAsset c req netA p t maxE).1 = (handleAsset c req netA p' t' maxE).1
  ∧ (handleOther c req netO p2).1 = (handleOther c req netO p2').1
  ∧ ((∃ fresh, netH = some fresh ∧ (handleHTML c req netH p).1 = fresh)
      ∨ (∃ k, cacheMatch c k = some ((handleHTML c req netH p).1))
      ∨ (handleHTML c req netH p).1 = offlineResp) := by
  refine ⟨?_, ?_, ?_, ?_⟩
  · cases netH <;> simp [handleHTML]
  · cases hm : cacheMatch c req.url with
    | some v => simp [handleAsset, hm]
    | none => cases netA <;> simp [handleAsset, hm]
  · cases netO <;> simp [handleOther]
  · cases netH with
    | some fresh => exact Or.inl ⟨fresh, rfl, by simp [handleHTML]⟩
    | none =>
        cases hm : cacheMatch c req.url with
        | some v =>
            exact Or.inr (Or.inl ⟨req.url, by simp [handleHTML, hm]⟩)
        | none =>
            cases hf : cacheMatch c "./index.html" with
            | some fb =>
                exact Or.inr (Or.inl ⟨"./index.html", by simp [handleHTML, hm, hf]⟩)
            | none => exact Or.inr (Or.inr (by simp [handleHTML, hm, hf]))

end Svetla
